import Mathlib

/-!
# The Tegra backend of drm_gralloc

A shallow embedding of `src/gralloc_drm_tegra.c` and the properties of its
operations `tegra_init_kms_features`, `tegra_map`, `alloc_bo` and `tegra_alloc`.

Conventions of the embedding:

* a C `int` is an `Int`; the result of an `int` operation is reduced with `wrap32`;
* a `uint32_t` or a flag word is a `Nat`; an `int` passed to a `uint32_t` parameter
  of the kernel-interface library is converted with `u32_of_int`;
* a pointer is a `Nat` address, `0` being `NULL`;
* a call `f(..., &cell)` of the kernel-interface library receives the content the
  cell has before the call and yields the content it has afterwards, so a call
  that does not store through its pointer yields the content it received;
* a local variable read before the program assigned it has the content the
  environment gives it (`junk_bo`, `junk_handle`, `junk_map`);
* every call into the kernel-interface library is appended to a trace.
-/

namespace GrallocTegra

/-! ## Machine arithmetic -/

/-- Addresses; `0` is `NULL`. -/
abbrev Ptr := Nat

/-- Largest value of a C `int`. -/
def INT_MAX : Int := 2147483647

/-- Smallest value of a C `int`. -/
def INT_MIN : Int := -2147483648

/-- The `int` that a 32-bit two's complement machine holds when the mathematical
result of an operation is `x`. -/
def wrap32 (x : Int) : Int := (x + 2147483648) % 4294967296 - 2147483648

/-- The conversion `(int) u` of a `uint32_t` value. -/
def int_of_u32 (u : Nat) : Int := wrap32 (u : Int)

/-- The conversion of an `int` to `uint32_t`, as happens when an `int` is passed to a
`uint32_t` parameter: the value modulo 2^32. -/
def u32_of_int (x : Int) : Nat := (x % 4294967296).toNat

/-- Modelled from the spec: the macro `ALIGN(val, align)` comes from a header of the
repository that is not under src; the spec describes it as rounding up to a multiple
of `align` ("align(width * bytes_per_pixel, 64)", "rounded up to a multiple of 64").
It is evaluated in `int` arithmetic: `align - 1` is added, then the remainder modulo
`align` is removed (for a power of two this is the mask `& ~(align - 1)`). -/
def ALIGN (val align : Int) : Int :=
  let t := wrap32 (val + (align - 1))
  wrap32 (t - t % align)

/-! ## Data model -/

/-- The buffer descriptor `struct gralloc_drm_handle_t`: the fields the backend
reads (`format`, `usage`, `width`, `height`, `name`) and writes (`stride`, `name`). -/
structure gralloc_drm_handle_t where
  width : Int
  height : Int
  format : Int
  usage : Nat
  name : Nat
  stride : Int
deriving DecidableEq, Repr

/-- The generic buffer object `struct gralloc_drm_bo_t`: the back-reference to the
descriptor (its address) and the kernel display handle. -/
structure gralloc_drm_bo_t where
  handle : Ptr
  fb_handle : Int
deriving DecidableEq, Repr

/-- The backend's buffer object `struct tegra_buffer`. -/
structure tegra_buffer where
  base : gralloc_drm_bo_t
  bo : Ptr
deriving DecidableEq, Repr

/-- The device context `struct tegra_info`. -/
structure tegra_info where
  drm : Ptr
  fd : Int
deriving DecidableEq, Repr

/-- The display output `*drm->primary`; `rest` stands for every field other than
`fb_format`. -/
structure gralloc_drm_output (ρ : Type) where
  fb_format : Int
  rest : ρ
deriving DecidableEq, Repr

/-- The display configuration `struct gralloc_drm_t`; `rest` stands for every field
that `tegra_init_kms_features` does not name. -/
structure gralloc_drm_t (ρ τ : Type) where
  primary : gralloc_drm_output ρ
  swap_mode : Int
  swap_interval : Int
  mode_quirk_vmwgfx : Int
  mode_sync_flip : Int
  vblank_secondary : Int
  rest : τ
deriving DecidableEq, Repr

/-- What the headers and shared helpers that are not under src provide: the
constants used by the backend, the format table `gralloc_drm_get_bpp` and the
geometry helper `gralloc_drm_align_geometry` (taking the format and the contents of
`*width`, `*height`, and yielding their new contents). -/
structure Platform where
  HAL_PIXEL_FORMAT_BGRA_8888 : Int
  HAL_PIXEL_FORMAT_RGB_565 : Int
  DRM_SWAP_FLIP : Int
  GRALLOC_USAGE_HW_FB : Nat
  gralloc_drm_get_bpp : Int → Int
  gralloc_drm_align_geometry : Int → Int → Int → Int × Int

/-- The outcome of a library call with an output cell: the library state afterwards,
the returned `int` and the content of the cell afterwards. -/
structure Reply (σ α : Type) where
  state : σ
  ret : Int
  out : α

/-- The kernel-interface library (libdrm_tegra) over a state `σ`.  The argument that
follows the state of `drm_tegra_bo_new`, `drm_tegra_bo_from_name` is the prior content
of `*bop`; the last argument of `drm_tegra_bo_get_name`, `drm_tegra_bo_get_handle`
and `drm_tegra_bo_map` is the prior content of the output cell.  The flags, the size
and the name are `uint32_t` parameters. -/
structure Kernel (σ : Type) where
  drm_tegra_bo_new : σ → Ptr → Ptr → Nat → Nat → Reply σ Ptr
  drm_tegra_bo_from_name : σ → Ptr → Ptr → Nat → Nat → Reply σ Ptr
  drm_tegra_bo_get_name : σ → Ptr → Nat → Reply σ Nat
  drm_tegra_bo_get_handle : σ → Ptr → Nat → Reply σ Nat
  drm_tegra_bo_map : σ → Ptr → Ptr → Reply σ Ptr
  drm_tegra_bo_unref : σ → Ptr → σ
  errno : σ → Int

/-- One call into the kernel-interface library: its input arguments, then the `int`
it returned and the content of its output cell afterwards. -/
inductive Call where
  | bo_new (drm : Ptr) (flags : Nat) (size : Nat) (ret : Int) (bop : Ptr)
  | bo_from_name (drm : Ptr) (name : Nat) (flags : Nat) (ret : Int) (bop : Ptr)
  | bo_get_name (bo : Ptr) (ret : Int) (name : Nat)
  | bo_get_handle (bo : Ptr) (ret : Int) (handle : Nat)
  | bo_map (bo : Ptr) (ret : Int) (map : Ptr)
  | bo_unref (bo : Ptr)
deriving DecidableEq, Repr

/-- Everything a run depends on besides its arguments: the platform, the library,
whether `calloc` yields a record, and the contents of the locals `tegra_bo`,
`handle_` and `map` before anything is stored in them. -/
structure Env (σ : Type) where
  plat : Platform
  kern : Kernel σ
  calloc_ok : Bool
  junk_bo : Ptr
  junk_handle : Nat
  junk_map : Ptr

/-- Whether a call is a buffer-object creation (`drm_tegra_bo_new`). -/
def Call.is_new : Call → Bool
  | Call.bo_new _ _ _ _ _ => true
  | _ => false

/-- Whether a call is an import by name (`drm_tegra_bo_from_name`). -/
def Call.is_from_name : Call → Bool
  | Call.bo_from_name _ _ _ _ _ => true
  | _ => false

/-- Whether a call is an export naming (`drm_tegra_bo_get_name`). -/
def Call.is_get_name : Call → Bool
  | Call.bo_get_name _ _ _ => true
  | _ => false

/-- Whether a call releases a buffer object (`drm_tegra_bo_unref`). -/
def Call.is_unref : Call → Bool
  | Call.bo_unref _ => true
  | _ => false

/-! ## `tegra_init_kms_features` -/

/-- Lines 53-70: the `switch` keeps the two accepted formats and replaces any other
by BGRA_8888; five policy fields are then assigned.  `drv` is not used. -/
def tegra_init_kms_features {δ ρ τ : Type} (P : Platform) (_drv : δ)
    (drm : gralloc_drm_t ρ τ) : gralloc_drm_t ρ τ :=
  let primary : gralloc_drm_output ρ :=
    if drm.primary.fb_format = P.HAL_PIXEL_FORMAT_BGRA_8888 then drm.primary
    else if drm.primary.fb_format = P.HAL_PIXEL_FORMAT_RGB_565 then drm.primary
    else { drm.primary with fb_format := P.HAL_PIXEL_FORMAT_BGRA_8888 }
  { drm with
    primary := primary
    mode_quirk_vmwgfx := 0
    swap_mode := P.DRM_SWAP_FLIP
    mode_sync_flip := 1
    swap_interval := 1
    vblank_secondary := 0 }

/-! ## `tegra_map` -/

/-- What `tegra_map` leaves behind: its return value, the content of `*addr`, the
library state and the calls made. -/
structure MapResult (σ : Type) where
  ret : Int
  addr : Ptr
  state : σ
  trace : List Call

/-- Lines 72-83.  `addr` is the content of `*addr` on entry; the function never
assigns it.  The mapping is requested into the local `map`; a non-zero return of the
library yields `0`, a zero return yields `-errno`. -/
def tegra_map {σ : Type} (E : Env σ) (s : σ) (bo : tegra_buffer)
    (_x _y _w _h _enable_write : Int) (addr : Ptr) : MapResult σ :=
  let r := E.kern.drm_tegra_bo_map s bo.bo E.junk_map
  if r.ret ≠ 0 then
    { ret := 0, addr := addr, state := r.state,
      trace := [Call.bo_map bo.bo r.ret r.out] }
  else
    { ret := wrap32 (-(E.kern.errno r.state)), addr := addr, state := r.state,
      trace := [Call.bo_map bo.bo r.ret r.out] }

/-! ## `alloc_bo` -/

/-- What `alloc_bo` leaves behind: the returned pointer, the content of `*pitch`, the
library state and the calls made. -/
structure AllocBoResult (σ : Type) where
  ret : Ptr
  pitch : Int
  state : σ
  trace : List Call

/-- Lines 85-97.  The local `tegra_bo` is not initialised; the library call receives
its address.  `flags` and `size` are `int` locals, converted to the `uint32_t`
parameters of `drm_tegra_bo_new`.  A non-zero return of `drm_tegra_bo_new` yields the
content of `tegra_bo`, a zero return yields `NULL`. -/
def alloc_bo {σ : Type} (E : Env σ) (s : σ) (drm : Ptr)
    (width height cpp : Int) (_usage : Nat) : AllocBoResult σ :=
  let flags : Int := 0
  let pitch := ALIGN (wrap32 (width * cpp)) 64
  let size := wrap32 (pitch * height)
  let r := E.kern.drm_tegra_bo_new s E.junk_bo drm (u32_of_int flags) (u32_of_int size)
  { ret := if r.ret ≠ 0 then r.out else 0
    pitch := pitch
    state := r.state
    trace := [Call.bo_new drm (u32_of_int flags) (u32_of_int size) r.ret r.out] }

/-! ## `tegra_alloc` -/

/-- What `tegra_alloc` leaves behind: the returned object (`none` for `NULL`), the
content of the descriptor, the library state and the calls made. -/
structure AllocResult (σ : Type) where
  ret : Option tegra_buffer
  handle : gralloc_drm_handle_t
  state : σ
  trace : List Call

/-- Lines 150-157, the part both branches of `tegra_alloc` run into: the display
handle is resolved when the usage has a bit of `GRALLOC_USAGE_HW_FB`, then the
back-reference is stored and the record returned. -/
def tegra_alloc_finish {σ : Type} (E : Env σ) (s : σ) (handle_ptr : Ptr)
    (handle : gralloc_drm_handle_t) (tegra_buf : tegra_buffer) (trace : List Call) :
    AllocResult σ :=
  if handle.usage &&& E.plat.GRALLOC_USAGE_HW_FB ≠ 0 then
    let r := E.kern.drm_tegra_bo_get_handle s tegra_buf.bo E.junk_handle
    { ret := some { tegra_buf with
                    base := { handle := handle_ptr, fb_handle := int_of_u32 r.out } }
      handle := handle
      state := r.state
      trace := trace ++ [Call.bo_get_handle tegra_buf.bo r.ret r.out] }
  else
    { ret := some { tegra_buf with base := { tegra_buf.base with handle := handle_ptr } }
      handle := handle
      state := s
      trace := trace }

/-- Lines 99-158.  `handle_ptr` is the address of the descriptor and `handle` its
content on entry. -/
def tegra_alloc {σ : Type} (E : Env σ) (s : σ) (info : tegra_info) (handle_ptr : Ptr)
    (handle : gralloc_drm_handle_t) : AllocResult σ :=
  let cpp := E.plat.gralloc_drm_get_bpp handle.format
  if cpp = 0 then
    { ret := none, handle := handle, state := s, trace := [] }
  else if E.calloc_ok = false then
    { ret := none, handle := handle, state := s, trace := [] }
  else
    let tegra_buf : tegra_buffer := { base := { handle := 0, fb_handle := 0 }, bo := 0 }
    if handle.name ≠ 0 then
      let r := E.kern.drm_tegra_bo_from_name s tegra_buf.bo info.drm handle.name 0
      if r.out = 0 then
        { ret := none, handle := handle, state := r.state,
          trace := [Call.bo_from_name info.drm handle.name 0 r.ret r.out] }
      else
        tegra_alloc_finish E r.state handle_ptr handle { tegra_buf with bo := r.out }
          [Call.bo_from_name info.drm handle.name 0 r.ret r.out]
    else
      let g := E.plat.gralloc_drm_align_geometry handle.format handle.width handle.height
      let a := alloc_bo E s info.drm g.1 g.2 cpp handle.usage
      if a.ret = 0 then
        { ret := none, handle := handle, state := a.state, trace := a.trace }
      else
        let n := E.kern.drm_tegra_bo_get_name a.state a.ret handle.name
        if n.ret ≠ 0 then
          { ret := none
            handle := { handle with name := n.out }
            state := E.kern.drm_tegra_bo_unref n.state a.ret
            trace := a.trace ++ [Call.bo_get_name a.ret n.ret n.out, Call.bo_unref a.ret] }
        else
          tegra_alloc_finish E n.state handle_ptr
            { handle with name := n.out, stride := a.pitch }
            { tegra_buf with bo := a.ret }
            (a.trace ++ [Call.bo_get_name a.ret n.ret n.out])

/-! ## A concrete platform and library

They instantiate the general statements on concrete runs. -/

/-- The Android values of the constants, a format table with the two display formats
(BGRA_8888 at 4 bytes, RGB_565 at 2 bytes, anything else unsupported) and a geometry
helper that keeps the geometry of these formats. -/
def samplePlatform : Platform where
  HAL_PIXEL_FORMAT_BGRA_8888 := 5
  HAL_PIXEL_FORMAT_RGB_565 := 4
  DRM_SWAP_FLIP := 1
  GRALLOC_USAGE_HW_FB := 4096
  gralloc_drm_get_bpp := fun f => if f = 5 then 4 else if f = 4 then 2 else 0
  gralloc_drm_align_geometry := fun _ w h => (w, h)

/-- State of the sample library: the address the next object gets, which requests it
denies, and `errno`. -/
structure SimState where
  next : Ptr
  deny_new : Bool
  deny_import : Bool
  deny_flink : Bool
  deny_map : Bool
  errno : Int
deriving DecidableEq, Repr

/-- A library following the libdrm convention: `0` and the output stored on success,
a negative error code and the output cell untouched on failure. -/
def simKernel : Kernel SimState where
  drm_tegra_bo_new := fun s bop _ _ _ =>
    if s.deny_new then { state := { s with errno := 12 }, ret := -12, out := bop }
    else { state := { s with next := s.next + 4096 }, ret := 0, out := s.next }
  drm_tegra_bo_from_name := fun s bop _ _ _ =>
    if s.deny_import then { state := { s with errno := 2 }, ret := -2, out := bop }
    else { state := { s with next := s.next + 4096 }, ret := 0, out := s.next }
  drm_tegra_bo_get_name := fun s bo name =>
    if s.deny_flink then { state := { s with errno := 22 }, ret := -22, out := name }
    else { state := s, ret := 0, out := bo / 4096 }
  drm_tegra_bo_get_handle := fun s bo _ => { state := s, ret := 0, out := bo / 4096 + 100 }
  drm_tegra_bo_map := fun s bo map =>
    if s.deny_map then { state := { s with errno := 12 }, ret := -12, out := map }
    else { state := s, ret := 0, out := bo + 1048576 }
  drm_tegra_bo_unref := fun s _ => s
  errno := fun s => s.errno

/-- A library state in which every request is granted. -/
def simState : SimState :=
  { next := 8192, deny_new := false, deny_import := false, deny_flink := false,
    deny_map := false, errno := 0 }

/-- The sample environment: `calloc` yields a record, and the uninitialised locals
hold left-over stack contents. -/
def simEnv : Env SimState :=
  { plat := samplePlatform, kern := simKernel, calloc_ok := true,
    junk_bo := 48879, junk_handle := 57005, junk_map := 51966 }

/-- The sample device context. -/
def simInfo : tegra_info := { drm := 64, fd := 3 }

/-- The descriptor of the spec scenario: BGRA_8888, 100 x 50, no usage bit, no name. -/
def simHandle : gralloc_drm_handle_t :=
  { width := 100, height := 50, format := 5, usage := 0, name := 0, stride := 0 }


/-! ## Machine arithmetic: facts -/

/-- An `int` operation whose mathematical result is in range yields that result. -/
theorem wrap32_of_range (x : Int) (hlo : INT_MIN ≤ x) (hhi : x ≤ INT_MAX) :
    wrap32 x = x := by
  unfold INT_MIN at hlo
  unfold INT_MAX at hhi
  unfold wrap32
  omega

/-- An `int` product that is neither negative nor above `INT_MAX` reaches a `uint32_t`
parameter unchanged. -/
theorem u32_of_int_wrap32_of_range (x : Int) (hlo : 0 ≤ x) (hhi : x ≤ INT_MAX) :
    ((u32_of_int (wrap32 x) : Nat) : Int) = x := by
  rw [wrap32_of_range x (le_trans (by unfold INT_MIN; omega) hlo) hhi]
  unfold INT_MAX at hhi
  unfold u32_of_int
  rw [Int.toNat_of_nonneg (Int.emod_nonneg x (by omega))]
  omega

/-- Rounding up to a multiple of 64 when nothing overflows. -/
theorem ALIGN_64_of_range (p : Int) (h0 : 0 ≤ p) (h1 : p + 63 ≤ INT_MAX) :
    64 ∣ ALIGN p 64 ∧ p ≤ ALIGN p 64 ∧ ALIGN p 64 < p + 64 := by
  unfold INT_MAX at h1
  unfold ALIGN wrap32
  simp only
  omega

/-! ## Properties of `tegra_init_kms_features` -/

/-- C7: for every input display configuration, `tegra_init_kms_features` yields a
configuration whose framebuffer format is the input format when that is BGRA_8888 or
RGB_565 and BGRA_8888 otherwise, whose policy fields are `swap_mode = DRM_SWAP_FLIP`,
`mode_sync_flip = 1`, `swap_interval = 1`, `vblank_secondary = 0` and
`mode_quirk_vmwgfx = 0` whatever they were, and whose other fields (of the output
record and of the configuration) are those of the input. -/
theorem tegra_init_kms_features_fields {δ ρ τ : Type} (P : Platform) (drv : δ)
    (drm : gralloc_drm_t ρ τ) :
    (tegra_init_kms_features P drv drm).primary.fb_format
        = (if drm.primary.fb_format = P.HAL_PIXEL_FORMAT_BGRA_8888
              ∨ drm.primary.fb_format = P.HAL_PIXEL_FORMAT_RGB_565
           then drm.primary.fb_format else P.HAL_PIXEL_FORMAT_BGRA_8888)
      ∧ (tegra_init_kms_features P drv drm).swap_mode = P.DRM_SWAP_FLIP
      ∧ (tegra_init_kms_features P drv drm).mode_sync_flip = 1
      ∧ (tegra_init_kms_features P drv drm).swap_interval = 1
      ∧ (tegra_init_kms_features P drv drm).vblank_secondary = 0
      ∧ (tegra_init_kms_features P drv drm).mode_quirk_vmwgfx = 0
      ∧ (tegra_init_kms_features P drv drm).primary.rest = drm.primary.rest
      ∧ (tegra_init_kms_features P drv drm).rest = drm.rest := by
  refine ⟨?_, rfl, rfl, rfl, rfl, rfl, ?_, rfl⟩
  · unfold tegra_init_kms_features
    by_cases h1 : drm.primary.fb_format = P.HAL_PIXEL_FORMAT_BGRA_8888
    · simp [h1]
    · by_cases h2 : drm.primary.fb_format = P.HAL_PIXEL_FORMAT_RGB_565
      · simp [h2]
      · simp [h1, h2]
  · unfold tegra_init_kms_features
    by_cases h1 : drm.primary.fb_format = P.HAL_PIXEL_FORMAT_BGRA_8888
    · simp [h1]
    · by_cases h2 : drm.primary.fb_format = P.HAL_PIXEL_FORMAT_RGB_565
      · simp [h2]
      · simp [h1, h2]

/-- C8: `tegra_init_kms_features` is a function of the display configuration alone
(two driver contexts, of any types, give the same output on the same configuration)
and it is idempotent: applied to its own output it changes nothing. -/
theorem tegra_init_kms_features_pure_idempotent {δ ε ρ τ : Type} (P : Platform)
    (drv : δ) (drv2 : ε) (drm : gralloc_drm_t ρ τ) :
    tegra_init_kms_features P drv drm = tegra_init_kms_features P drv2 drm
      ∧ tegra_init_kms_features P drv2 (tegra_init_kms_features P drv drm)
          = tegra_init_kms_features P drv drm := by
  refine ⟨rfl, ?_⟩
  unfold tegra_init_kms_features
  by_cases h1 : drm.primary.fb_format = P.HAL_PIXEL_FORMAT_BGRA_8888
  · simp [h1]
  · by_cases h2 : drm.primary.fb_format = P.HAL_PIXEL_FORMAT_RGB_565
    · simp [h2]
    · simp [h1, h2]

/-! ## Properties of `tegra_alloc`: unsupported formats -/

/-- The run of `tegra_alloc` when the format table gives 0 (lines 107-111): nothing is
returned, nothing is called, nothing is written. -/
theorem tegra_alloc_no_format {σ : Type} (E : Env σ) (s : σ) (info : tegra_info)
    (handle_ptr : Ptr) (handle : gralloc_drm_handle_t)
    (hfmt : E.plat.gralloc_drm_get_bpp handle.format = 0) :
    tegra_alloc E s info handle_ptr handle
      = { ret := none, handle := handle, state := s, trace := [] } := by
  simp [tegra_alloc, hfmt]

/-- C5: for every descriptor whose format the table does not know
(`gralloc_drm_get_bpp` gives 0), `tegra_alloc` returns no object, makes no call into
the kernel-interface library at all (the trace is empty and the library state is the
one it was given) and leaves the descriptor, hence its stride and its global name, as
it was. -/
theorem tegra_alloc_unsupported_format {σ : Type} (E : Env σ) (s : σ) (info : tegra_info)
    (handle_ptr : Ptr) (handle : gralloc_drm_handle_t)
    (hfmt : E.plat.gralloc_drm_get_bpp handle.format = 0) :
    (tegra_alloc E s info handle_ptr handle).ret = none
      ∧ (tegra_alloc E s info handle_ptr handle).trace = []
      ∧ (tegra_alloc E s info handle_ptr handle).state = s
      ∧ (tegra_alloc E s info handle_ptr handle).handle = handle
      ∧ (tegra_alloc E s info handle_ptr handle).handle.stride = handle.stride
      ∧ (tegra_alloc E s info handle_ptr handle).handle.name = handle.name := by
  rw [tegra_alloc_no_format E s info handle_ptr handle hfmt]
  exact ⟨rfl, rfl, rfl, rfl, rfl, rfl⟩

/-- The format 0xDEAD of the spec scenario is unsupported on the sample platform, with
or without a global name: nothing is returned, nothing is called, stride and name
stay. -/
theorem tegra_alloc_unsupported_format_witness :
    simEnv.plat.gralloc_drm_get_bpp
        ({ simHandle with format := 57005, name := 12345, stride := 7 }).format = 0
      ∧ (tegra_alloc simEnv simState simInfo 77
          { simHandle with format := 57005, name := 12345, stride := 7 }).ret = none
      ∧ (tegra_alloc simEnv simState simInfo 77
          { simHandle with format := 57005, name := 12345, stride := 7 }).trace = []
      ∧ (tegra_alloc simEnv simState simInfo 77
          { simHandle with format := 57005, name := 12345, stride := 7 }).handle.stride = 7
      ∧ (tegra_alloc simEnv simState simInfo 77
          { simHandle with format := 57005, name := 12345, stride := 7 }).handle.name
            = 12345 := by
  have h := tegra_alloc_unsupported_format simEnv simState simInfo 77
    { simHandle with format := 57005, name := 12345, stride := 7 } (by decide)
  exact ⟨by decide, h.1, h.2.1, h.2.2.2.2.1, h.2.2.2.2.2⟩


/-! ## Properties of `tegra_map` -/

/-- What `tegra_map` does on every input: it makes one mapping call, never assigns
`*addr`, returns `0` when that call returned non-zero and `-errno` when it returned
`0`. -/
theorem tegra_map_behaviour {σ : Type} (E : Env σ) (s : σ) (bo : tegra_buffer)
    (x y w h enable_write : Int) (addr : Ptr) :
    (tegra_map E s bo x y w h enable_write addr).addr = addr
      ∧ (tegra_map E s bo x y w h enable_write addr).trace
          = [Call.bo_map bo.bo (E.kern.drm_tegra_bo_map s bo.bo E.junk_map).ret
              (E.kern.drm_tegra_bo_map s bo.bo E.junk_map).out]
      ∧ ((E.kern.drm_tegra_bo_map s bo.bo E.junk_map).ret ≠ 0 →
          (tegra_map E s bo x y w h enable_write addr).ret = 0)
      ∧ ((E.kern.drm_tegra_bo_map s bo.bo E.junk_map).ret = 0 →
          (tegra_map E s bo x y w h enable_write addr).ret
            = wrap32 (-(E.kern.errno (E.kern.drm_tegra_bo_map s bo.bo E.junk_map).state))) := by
  unfold tegra_map
  by_cases hr : (E.kern.drm_tegra_bo_map s bo.bo E.junk_map).ret = 0
  · simp [hr]
  · simp [hr]

/-- C2 (the code departs from the claim): on the sample library, when the mapping call
fails (returns -12, `errno` 12) `tegra_map` returns 0, the success value; when the
mapping call succeeds (returns 0 and stores the address 1056768) `tegra_map` returns
`-errno` for whatever `errno` holds (here the stale value 11, so -11) and `*addr`
keeps its prior content 0 instead of receiving the mapped address. -/
theorem tegra_map_status_inverted :
    (tegra_map simEnv { simState with deny_map := true }
        { base := { handle := 77, fb_handle := 0 }, bo := 8192 } 0 0 100 50 1 0).trace
        = [Call.bo_map 8192 (-12) 51966]
      ∧ (tegra_map simEnv { simState with deny_map := true }
        { base := { handle := 77, fb_handle := 0 }, bo := 8192 } 0 0 100 50 1 0).ret = 0
      ∧ (tegra_map simEnv { simState with errno := 11 }
        { base := { handle := 77, fb_handle := 0 }, bo := 8192 } 0 0 100 50 1 0).trace
        = [Call.bo_map 8192 0 1056768]
      ∧ (tegra_map simEnv { simState with errno := 11 }
        { base := { handle := 77, fb_handle := 0 }, bo := 8192 } 0 0 100 50 1 0).ret = -11
      ∧ (tegra_map simEnv { simState with errno := 11 }
        { base := { handle := 77, fb_handle := 0 }, bo := 8192 } 0 0 100 50 1 0).addr = 0 := by
  decide

/-! ## Properties of `tegra_alloc`: creation status -/

/-- The four ways through the fresh-allocation branch (lines 126-158), once the
format is supported and the record allocated: `alloc_bo` gave `NULL`; naming failed;
naming succeeded without, or with, the display-handle call.  `a`, `n`, `k` name the
results of `alloc_bo`, `drm_tegra_bo_get_name` and `drm_tegra_bo_get_handle`. -/
theorem tegra_alloc_fresh_paths {σ : Type} (E : Env σ) (s : σ) (info : tegra_info)
    (handle_ptr : Ptr) (handle : gralloc_drm_handle_t)
    (hname : handle.name = 0)
    (hbpp : E.plat.gralloc_drm_get_bpp handle.format ≠ 0)
    (hcalloc : E.calloc_ok = true)
    (a : AllocBoResult σ)
    (ha : a = alloc_bo E s info.drm
      (E.plat.gralloc_drm_align_geometry handle.format handle.width handle.height).1
      (E.plat.gralloc_drm_align_geometry handle.format handle.width handle.height).2
      (E.plat.gralloc_drm_get_bpp handle.format) handle.usage)
    (n : Reply σ Nat) (hn : n = E.kern.drm_tegra_bo_get_name a.state a.ret 0)
    (k : Reply σ Nat) (hk : k = E.kern.drm_tegra_bo_get_handle n.state a.ret E.junk_handle) :
    (a.ret = 0 ∧ tegra_alloc E s info handle_ptr handle
        = { ret := none, handle := handle, state := a.state, trace := a.trace })
    ∨ (a.ret ≠ 0 ∧ n.ret ≠ 0 ∧ tegra_alloc E s info handle_ptr handle
        = { ret := none, handle := { handle with name := n.out },
            state := E.kern.drm_tegra_bo_unref n.state a.ret,
            trace := a.trace ++ [Call.bo_get_name a.ret n.ret n.out, Call.bo_unref a.ret] })
    ∨ (a.ret ≠ 0 ∧ n.ret = 0 ∧ handle.usage &&& E.plat.GRALLOC_USAGE_HW_FB = 0
        ∧ tegra_alloc E s info handle_ptr handle
        = { ret := some { base := { handle := handle_ptr, fb_handle := 0 }, bo := a.ret },
            handle := { handle with name := n.out, stride := a.pitch },
            state := n.state,
            trace := a.trace ++ [Call.bo_get_name a.ret n.ret n.out] })
    ∨ (a.ret ≠ 0 ∧ n.ret = 0 ∧ handle.usage &&& E.plat.GRALLOC_USAGE_HW_FB ≠ 0
        ∧ tegra_alloc E s info handle_ptr handle
        = { ret := some { base := { handle := handle_ptr, fb_handle := int_of_u32 k.out },
                          bo := a.ret },
            handle := { handle with name := n.out, stride := a.pitch },
            state := k.state,
            trace := a.trace ++ [Call.bo_get_name a.ret n.ret n.out]
                      ++ [Call.bo_get_handle a.ret k.ret k.out] }) := by
  unfold tegra_alloc
  simp only [hname, hbpp, hcalloc, ne_eq, not_true_eq_false, if_false, ← ha,
    Bool.true_eq_false, ← hn]
  by_cases h1 : a.ret = 0
  · left
    simp [h1]
  · right
    by_cases h2 : n.ret = 0
    · right
      unfold tegra_alloc_finish
      by_cases h3 : handle.usage &&& E.plat.GRALLOC_USAGE_HW_FB = 0
      · left
        simp [h1, h2, h3]
      · right
        simp [h1, h2, h3, ← hk]
    · left
      simp [h1, h2]

/-- The two ways through the import branch (lines 117-125, 150-158), once the format
is supported and the record allocated; `r` and `k` name the results of
`drm_tegra_bo_from_name` and `drm_tegra_bo_get_handle`. -/
theorem tegra_alloc_import_paths {σ : Type} (E : Env σ) (s : σ) (info : tegra_info)
    (handle_ptr : Ptr) (handle : gralloc_drm_handle_t)
    (hname : handle.name ≠ 0)
    (hbpp : E.plat.gralloc_drm_get_bpp handle.format ≠ 0)
    (hcalloc : E.calloc_ok = true)
    (r : Reply σ Ptr) (hr : r = E.kern.drm_tegra_bo_from_name s 0 info.drm handle.name 0)
    (k : Reply σ Nat) (hk : k = E.kern.drm_tegra_bo_get_handle r.state r.out E.junk_handle) :
    (r.out = 0 ∧ tegra_alloc E s info handle_ptr handle
        = { ret := none, handle := handle, state := r.state,
            trace := [Call.bo_from_name info.drm handle.name 0 r.ret r.out] })
    ∨ (r.out ≠ 0 ∧ handle.usage &&& E.plat.GRALLOC_USAGE_HW_FB = 0
        ∧ tegra_alloc E s info handle_ptr handle
        = { ret := some { base := { handle := handle_ptr, fb_handle := 0 }, bo := r.out },
            handle := handle, state := r.state,
            trace := [Call.bo_from_name info.drm handle.name 0 r.ret r.out] })
    ∨ (r.out ≠ 0 ∧ handle.usage &&& E.plat.GRALLOC_USAGE_HW_FB ≠ 0
        ∧ tegra_alloc E s info handle_ptr handle
        = { ret := some { base := { handle := handle_ptr, fb_handle := int_of_u32 k.out },
                          bo := r.out },
            handle := handle, state := k.state,
            trace := [Call.bo_from_name info.drm handle.name 0 r.ret r.out]
                      ++ [Call.bo_get_handle r.out k.ret k.out] }) := by
  unfold tegra_alloc
  simp only [hname, hbpp, hcalloc, ne_eq, not_false_eq_true, if_true, if_false, ← hr,
    Bool.true_eq_false]
  by_cases h1 : r.out = 0
  · left
    simp [h1]
  · right
    unfold tegra_alloc_finish
    by_cases h3 : handle.usage &&& E.plat.GRALLOC_USAGE_HW_FB = 0
    · left
      simp [h1, h3]
    · right
      simp [h1, h3, ← hk]

/-- The run of `tegra_alloc` when the format is supported and `calloc` gives no
record (lines 113-115): nothing is returned and nothing is called. -/
theorem tegra_alloc_no_record {σ : Type} (E : Env σ) (s : σ) (info : tegra_info)
    (handle_ptr : Ptr) (handle : gralloc_drm_handle_t)
    (hcalloc : E.calloc_ok = false) :
    tegra_alloc E s info handle_ptr handle
      = { ret := none, handle := handle, state := s, trace := [] } := by
  unfold tegra_alloc
  by_cases h : E.plat.gralloc_drm_get_bpp handle.format = 0
  · simp [h]
  · simp [h, hcalloc]

/-- The result of `alloc_bo`, written out: one creation call with flags 0 and the
size converted to `uint32_t`; the pointer returned is the content of `tegra_bo` when
the call returned non-zero, else `NULL`. -/
theorem alloc_bo_eq {σ : Type} (E : Env σ) (s : σ) (drm : Ptr) (width height cpp : Int)
    (usage : Nat) :
    alloc_bo E s drm width height cpp usage
      = { ret := if (E.kern.drm_tegra_bo_new s E.junk_bo drm 0
                      (u32_of_int (wrap32 (ALIGN (wrap32 (width * cpp)) 64 * height)))).ret
                    ≠ 0
                 then (E.kern.drm_tegra_bo_new s E.junk_bo drm 0
                      (u32_of_int (wrap32 (ALIGN (wrap32 (width * cpp)) 64 * height)))).out
                 else 0
          pitch := ALIGN (wrap32 (width * cpp)) 64
          state := (E.kern.drm_tegra_bo_new s E.junk_bo drm 0
                      (u32_of_int (wrap32 (ALIGN (wrap32 (width * cpp)) 64 * height)))).state
          trace := [Call.bo_new drm 0
                      (u32_of_int (wrap32 (ALIGN (wrap32 (width * cpp)) 64 * height)))
                      (E.kern.drm_tegra_bo_new s E.junk_bo drm 0
                        (u32_of_int (wrap32 (ALIGN (wrap32 (width * cpp)) 64 * height)))).ret
                      (E.kern.drm_tegra_bo_new s E.junk_bo drm 0
                        (u32_of_int (wrap32 (ALIGN (wrap32 (width * cpp)) 64 * height)))).out]
        } := rfl

/-- When `alloc_bo` returns a non-null pointer, its creation call returned non-zero
and the pointer is what that call left in `tegra_bo`. -/
theorem alloc_bo_ret_ne_zero {σ : Type} (E : Env σ) (s : σ) (drm : Ptr)
    (width height cpp : Int) (usage : Nat)
    (h : (alloc_bo E s drm width height cpp usage).ret ≠ 0) :
    ∃ size ret, ret ≠ 0 ∧ (alloc_bo E s drm width height cpp usage).trace
      = [Call.bo_new drm 0 size ret (alloc_bo E s drm width height cpp usage).ret] := by
  rw [alloc_bo_eq] at h ⊢
  simp only at h ⊢
  split_ifs at h ⊢ with hne
  · exact ⟨_, _, hne, rfl⟩
  · exact absurd rfl h

/-- On the fresh-allocation path every object `tegra_alloc` returns follows a creation
call that returned non-zero, and holds whatever that call left in `tegra_bo`. -/
theorem tegra_alloc_fresh_object_origin {σ : Type} (E : Env σ) (s : σ) (info : tegra_info)
    (handle_ptr : Ptr) (handle : gralloc_drm_handle_t) (obj : tegra_buffer)
    (hname : handle.name = 0)
    (hret : (tegra_alloc E s info handle_ptr handle).ret = some obj) :
    ∃ size ret, ret ≠ 0 ∧ (tegra_alloc E s info handle_ptr handle).trace.head?
        = some (Call.bo_new info.drm 0 size ret obj.bo) := by
  by_cases hbpp : E.plat.gralloc_drm_get_bpp handle.format = 0
  · rw [tegra_alloc_no_format E s info handle_ptr handle hbpp] at hret
    simp at hret
  by_cases hcalloc : E.calloc_ok = true
  swap
  · rw [tegra_alloc_no_record E s info handle_ptr handle (by simpa using hcalloc)] at hret
    simp at hret
  rcases tegra_alloc_fresh_paths E s info handle_ptr handle hname hbpp hcalloc
      _ rfl _ rfl _ rfl with ⟨_, hT⟩ | ⟨_, _, hT⟩ | ⟨h1, _, _, hT⟩ | ⟨h1, _, _, hT⟩
  · rw [hT] at hret
    simp at hret
  · rw [hT] at hret
    simp at hret
  all_goals
    obtain ⟨size, ret0, hne, htr⟩ := alloc_bo_ret_ne_zero _ _ _ _ _ _ _ h1
    rw [hT] at hret ⊢
    simp only [Option.some.injEq] at hret
    subst hret
    rw [htr]
    exact ⟨size, ret0, hne, rfl⟩

/-- C1 (the code departs from the claim): on the sample library, for the descriptor
BGRA_8888 100 x 50 with no global name, when the creation call succeeds (returns 0 and
stores the object 8192) `tegra_alloc` returns no object and makes no further call;
when the creation call fails (returns -12 and stores nothing) `tegra_alloc` goes on with
the uninitialised content 48879 of `tegra_bo`, names it and returns an object. -/
theorem tegra_alloc_creation_status_inverted :
    simHandle.name = 0
      ∧ 0 < simEnv.plat.gralloc_drm_get_bpp simHandle.format
      ∧ (tegra_alloc simEnv simState simInfo 77 simHandle).trace
          = [Call.bo_new 64 0 22400 0 8192]
      ∧ (tegra_alloc simEnv simState simInfo 77 simHandle).ret = none
      ∧ (tegra_alloc simEnv { simState with deny_new := true } simInfo 77 simHandle).trace
          = [Call.bo_new 64 0 22400 (-12) 48879, Call.bo_get_name 48879 0 11]
      ∧ (tegra_alloc simEnv { simState with deny_new := true } simInfo 77 simHandle).ret
          = some { base := { handle := 77, fb_handle := 0 }, bo := 48879 } := by
  decide


/-! ## Properties of `tegra_alloc`: the fresh-allocation request -/

/-- C3, counterexample: for the descriptor BGRA_8888 100 x 50 without a global name
(supported format, 4 bytes per pixel), when `calloc` gives no record `tegra_alloc`
returns at line 115 and asks the kernel for nothing. -/
theorem tegra_alloc_fresh_request_counterexample :
    simHandle.name = 0
      ∧ 0 < simEnv.plat.gralloc_drm_get_bpp simHandle.format
      ∧ (tegra_alloc { simEnv with calloc_ok := false } simState simInfo 77 simHandle).trace
          = []
      ∧ (tegra_alloc { simEnv with calloc_ok := false } simState simInfo 77 simHandle).ret
          = none := by
  decide

/-- C3, amended: for every descriptor with global name 0 and a supported format, once
the record is allocated, the first call `tegra_alloc` makes asks the kernel for a buffer
object with flags 0 and with the size that the `int` product `stride * ah` becomes as a
`uint32_t` argument, where `(aw, ah)` is what `gralloc_drm_align_geometry` makes of the
width and height of the descriptor and `stride = ALIGN(aw * bpp, 64)`; that size is
`stride * ah` itself whenever `0 <= stride * ah <= INT_MAX`; no other creation call
follows; and whenever an object is returned, the stride field of the descriptor is
that stride. -/
theorem tegra_alloc_fresh_request {σ : Type} (E : Env σ) (s : σ) (info : tegra_info)
    (handle_ptr : Ptr) (handle : gralloc_drm_handle_t)
    (hname : handle.name = 0)
    (hbpp : E.plat.gralloc_drm_get_bpp handle.format ≠ 0)
    (hcalloc : E.calloc_ok = true) :
    ∃ ret bop rest,
      (tegra_alloc E s info handle_ptr handle).trace
          = Call.bo_new info.drm 0
              (u32_of_int (wrap32 (ALIGN (wrap32
                  ((E.plat.gralloc_drm_align_geometry handle.format handle.width
                      handle.height).1 * E.plat.gralloc_drm_get_bpp handle.format)) 64
                * (E.plat.gralloc_drm_align_geometry handle.format handle.width
                      handle.height).2)))
              ret bop :: rest
        ∧ rest.filter Call.is_new = []
        ∧ (0 ≤ ALIGN (wrap32
                  ((E.plat.gralloc_drm_align_geometry handle.format handle.width
                      handle.height).1 * E.plat.gralloc_drm_get_bpp handle.format)) 64
                * (E.plat.gralloc_drm_align_geometry handle.format handle.width
                      handle.height).2
            ∧ ALIGN (wrap32
                  ((E.plat.gralloc_drm_align_geometry handle.format handle.width
                      handle.height).1 * E.plat.gralloc_drm_get_bpp handle.format)) 64
                * (E.plat.gralloc_drm_align_geometry handle.format handle.width
                      handle.height).2 ≤ INT_MAX →
            ((u32_of_int (wrap32 (ALIGN (wrap32
                  ((E.plat.gralloc_drm_align_geometry handle.format handle.width
                      handle.height).1 * E.plat.gralloc_drm_get_bpp handle.format)) 64
                * (E.plat.gralloc_drm_align_geometry handle.format handle.width
                      handle.height).2)) : Nat) : Int)
              = ALIGN (wrap32
                  ((E.plat.gralloc_drm_align_geometry handle.format handle.width
                      handle.height).1 * E.plat.gralloc_drm_get_bpp handle.format)) 64
                * (E.plat.gralloc_drm_align_geometry handle.format handle.width
                      handle.height).2)
        ∧ ∀ obj, (tegra_alloc E s info handle_ptr handle).ret = some obj →
            (tegra_alloc E s info handle_ptr handle).handle.stride
              = ALIGN (wrap32
                  ((E.plat.gralloc_drm_align_geometry handle.format handle.width
                      handle.height).1 * E.plat.gralloc_drm_get_bpp handle.format)) 64 := by
  have hsize := fun h : 0 ≤ ALIGN (wrap32
                  ((E.plat.gralloc_drm_align_geometry handle.format handle.width
                      handle.height).1 * E.plat.gralloc_drm_get_bpp handle.format)) 64
                * (E.plat.gralloc_drm_align_geometry handle.format handle.width
                      handle.height).2
            ∧ ALIGN (wrap32
                  ((E.plat.gralloc_drm_align_geometry handle.format handle.width
                      handle.height).1 * E.plat.gralloc_drm_get_bpp handle.format)) 64
                * (E.plat.gralloc_drm_align_geometry handle.format handle.width
                      handle.height).2 ≤ INT_MAX =>
    u32_of_int_wrap32_of_range _ h.1 h.2
  rcases tegra_alloc_fresh_paths E s info handle_ptr handle hname hbpp hcalloc
      _ rfl _ rfl _ rfl with ⟨_, hT⟩ | ⟨_, _, hT⟩ | ⟨_, _, _, hT⟩ | ⟨_, _, _, hT⟩
  · rw [hT]
    refine ⟨_, _, _, by rw [alloc_bo_eq], by simp [Call.is_new], hsize, ?_⟩
    intro obj hobj
    simp at hobj
  · rw [hT]
    refine ⟨_, _, _, by rw [alloc_bo_eq]; rfl, by simp [Call.is_new], hsize, ?_⟩
    intro obj hobj
    simp at hobj
  · rw [hT]
    exact ⟨_, _, _, by rw [alloc_bo_eq]; rfl, by simp [Call.is_new], hsize, fun _ _ => rfl⟩
  · rw [hT]
    exact ⟨_, _, _, by rw [alloc_bo_eq]; rfl, by simp [Call.is_new], hsize, fun _ _ => rfl⟩

/-- The spec scenario on the sample library: BGRA_8888, 100 x 50, no name, in a run
that returns an object.  The request is for 22400 = 448 * 50 bytes with flags 0 and the
stride written to the descriptor is 448. -/
theorem tegra_alloc_fresh_request_witness :
    (tegra_alloc simEnv { simState with deny_new := true } simInfo 77 simHandle).ret ≠ none
      ∧ ∃ ret bop rest,
        (tegra_alloc simEnv { simState with deny_new := true } simInfo 77 simHandle).trace
            = Call.bo_new 64 0 22400 ret bop :: rest
          ∧ rest.filter Call.is_new = []
          ∧ ∀ obj,
              (tegra_alloc simEnv { simState with deny_new := true } simInfo 77
                  simHandle).ret = some obj →
              (tegra_alloc simEnv { simState with deny_new := true } simInfo 77
                  simHandle).handle.stride = 448 :=
  ⟨by decide,
   match tegra_alloc_fresh_request simEnv { simState with deny_new := true } simInfo 77
      simHandle (by decide) (by decide) (by decide) with
   | ⟨ret, bop, rest, h1, h2, _, h4⟩ => ⟨ret, bop, rest, h1, h2, h4⟩⟩

/-! ## Properties of `tegra_alloc`: import by name -/

/-- C4, counterexample: for the descriptor with global name 12345 and the unsupported
format 0xDEAD, on a library that would resolve the name (the import call would leave a
non-null pointer), `tegra_alloc` looks the format up first, returns no object and never
attempts the import; with the supported format 5 and everything else equal it imports
and returns an object, so the outcome depends on the format table.  With the supported
format and no record from `calloc` it also returns without attempting the import. -/
theorem tegra_alloc_import_counterexample :
    ({ simHandle with name := 12345, format := 57005 } : gralloc_drm_handle_t).name ≠ 0
      ∧ (simKernel.drm_tegra_bo_from_name simState 0 simInfo.drm 12345 0).out ≠ 0
      ∧ (tegra_alloc simEnv simState simInfo 77
            { simHandle with name := 12345, format := 57005 }).trace = []
      ∧ (tegra_alloc simEnv simState simInfo 77
            { simHandle with name := 12345, format := 57005 }).ret = none
      ∧ (tegra_alloc simEnv simState simInfo 77
            { simHandle with name := 12345, format := 5 }).ret
          = some { base := { handle := 77, fb_handle := 0 }, bo := 8192 }
      ∧ (tegra_alloc { simEnv with calloc_ok := false } simState simInfo 77
            { simHandle with name := 12345, format := 5 }).trace = []
      ∧ (tegra_alloc { simEnv with calloc_ok := false } simState simInfo 77
            { simHandle with name := 12345, format := 5 }).ret = none := by
  decide

/-- C4, amended: for every descriptor whose input global name is non-zero and whose
format is supported, once the record is allocated, `tegra_alloc` attempts the import
exactly once (with the descriptor's name and flags 0), makes no creation, naming or
release call, leaves the whole descriptor (stride included) as it was, and returns no
object exactly when the import leaves the buffer-object pointer null. -/
theorem tegra_alloc_import {σ : Type} (E : Env σ) (s : σ) (info : tegra_info)
    (handle_ptr : Ptr) (handle : gralloc_drm_handle_t)
    (hname : handle.name ≠ 0)
    (hbpp : E.plat.gralloc_drm_get_bpp handle.format ≠ 0)
    (hcalloc : E.calloc_ok = true) :
    (tegra_alloc E s info handle_ptr handle).trace.filter Call.is_from_name
        = [Call.bo_from_name info.drm handle.name 0
            (E.kern.drm_tegra_bo_from_name s 0 info.drm handle.name 0).ret
            (E.kern.drm_tegra_bo_from_name s 0 info.drm handle.name 0).out]
      ∧ (tegra_alloc E s info handle_ptr handle).trace.head?
        = some (Call.bo_from_name info.drm handle.name 0
            (E.kern.drm_tegra_bo_from_name s 0 info.drm handle.name 0).ret
            (E.kern.drm_tegra_bo_from_name s 0 info.drm handle.name 0).out)
      ∧ (tegra_alloc E s info handle_ptr handle).trace.filter
          (fun c => c.is_new || c.is_get_name || c.is_unref) = []
      ∧ (tegra_alloc E s info handle_ptr handle).handle = handle
      ∧ ((tegra_alloc E s info handle_ptr handle).ret = none
          ↔ (E.kern.drm_tegra_bo_from_name s 0 info.drm handle.name 0).out = 0) := by
  rcases tegra_alloc_import_paths E s info handle_ptr handle hname hbpp hcalloc
      _ rfl _ rfl with ⟨h1, hT⟩ | ⟨h1, _, hT⟩ | ⟨h1, _, hT⟩
  · rw [hT]
    simp [Call.is_from_name, Call.is_new, Call.is_get_name, Call.is_unref, h1]
  · rw [hT]
    simp [Call.is_from_name, Call.is_new, Call.is_get_name, Call.is_unref, h1]
  · rw [hT]
    simp [Call.is_from_name, Call.is_new, Call.is_get_name, Call.is_unref, h1]

/-- The spec scenario "name 12345, import fails" on the sample library: the import is
attempted, leaves the pointer null, and no object is returned. -/
theorem tegra_alloc_import_witness :
    ({ simHandle with name := 12345 } : gralloc_drm_handle_t).name ≠ 0
      ∧ (tegra_alloc simEnv { simState with deny_import := true } simInfo 77
            { simHandle with name := 12345 }).trace.head?
          = some (Call.bo_from_name 64 12345 0 (-2) 0)
      ∧ (tegra_alloc simEnv { simState with deny_import := true } simInfo 77
            { simHandle with name := 12345 }).handle = { simHandle with name := 12345 }
      ∧ (tegra_alloc simEnv { simState with deny_import := true } simInfo 77
            { simHandle with name := 12345 }).ret = none :=
  have h := tegra_alloc_import simEnv { simState with deny_import := true } simInfo 77
    { simHandle with name := 12345 } (by decide) (by decide) (by decide)
  ⟨by decide, h.2.1, h.2.2.2.1, h.2.2.2.2.2 (by decide)⟩

/-! ## Properties of `tegra_alloc`: naming failure -/

/-- What lines 140-148 do once they are reached: whenever `tegra_alloc` makes the
export-naming call on `b`, it is on the fresh-allocation path, `b` is the non-null
pointer a creation call that returned non-zero left in `tegra_bo`; if the naming call
returns non-zero, `b` is released exactly once, no object is returned and the stride
of the descriptor stays; if it returns zero nothing is released. -/
theorem tegra_alloc_naming {σ : Type} (E : Env σ) (s : σ) (info : tegra_info)
    (handle_ptr : Ptr) (handle : gralloc_drm_handle_t) (b : Ptr) (r : Int) (name : Nat)
    (hcall : Call.bo_get_name b r name ∈ (tegra_alloc E s info handle_ptr handle).trace) :
    handle.name = 0
      ∧ b ≠ 0
      ∧ (∃ size ret, ret ≠ 0 ∧ (tegra_alloc E s info handle_ptr handle).trace.head?
            = some (Call.bo_new info.drm 0 size ret b))
      ∧ (r ≠ 0 →
          (tegra_alloc E s info handle_ptr handle).trace.filter Call.is_unref
              = [Call.bo_unref b]
            ∧ (tegra_alloc E s info handle_ptr handle).ret = none
            ∧ (tegra_alloc E s info handle_ptr handle).handle.stride = handle.stride)
      ∧ (r = 0 →
          (tegra_alloc E s info handle_ptr handle).trace.filter Call.is_unref = []) := by
  by_cases hbpp : E.plat.gralloc_drm_get_bpp handle.format = 0
  · rw [tegra_alloc_no_format E s info handle_ptr handle hbpp] at hcall
    simp at hcall
  by_cases hcalloc : E.calloc_ok = true
  swap
  · rw [tegra_alloc_no_record E s info handle_ptr handle (by simpa using hcalloc)] at hcall
    simp at hcall
  by_cases hname : handle.name = 0
  swap
  · rcases tegra_alloc_import_paths E s info handle_ptr handle hname hbpp hcalloc
      _ rfl _ rfl with ⟨_, hT⟩ | ⟨_, _, hT⟩ | ⟨_, _, hT⟩
    all_goals
      rw [hT] at hcall
      simp at hcall
  rcases tegra_alloc_fresh_paths E s info handle_ptr handle hname hbpp hcalloc
      _ rfl _ rfl _ rfl with ⟨_, hT⟩ | ⟨h1, h2, hT⟩ | ⟨h1, h2, _, hT⟩ | ⟨h1, h2, _, hT⟩
  · rw [hT] at hcall
    simp [alloc_bo_eq] at hcall
  all_goals
    obtain ⟨size, ret0, hne, htr⟩ := alloc_bo_ret_ne_zero _ _ _ _ _ _ _ h1
    rw [hT] at hcall ⊢
    simp only [htr, List.singleton_append, List.cons_append, List.nil_append,
      List.mem_cons, List.mem_singleton, List.not_mem_nil, or_false, false_or,
      Call.bo_get_name.injEq, reduceCtorEq] at hcall ⊢
    obtain ⟨hb, hr, -⟩ := hcall
    subst hb hr
    refine ⟨hname, h1, ⟨_, _, hne, rfl⟩, ?_, ?_⟩
    · intro hr
      first
        | exact absurd h2 hr
        | simp [Call.is_unref]
    · intro hr
      first
        | exact absurd hr h2
        | simp [Call.is_unref]

/-- On the fresh-allocation path, when the creation call returns 0 (the kernel object
was obtained), `tegra_alloc` returns no object, never makes the naming call and never
releases anything: the created object is dropped. -/
theorem tegra_alloc_created_object_dropped {σ : Type} (E : Env σ) (s : σ)
    (info : tegra_info) (handle_ptr : Ptr) (handle : gralloc_drm_handle_t)
    (hname : handle.name = 0)
    (hcreated : (E.kern.drm_tegra_bo_new s E.junk_bo info.drm 0
        (u32_of_int (wrap32 (ALIGN (wrap32
            ((E.plat.gralloc_drm_align_geometry handle.format handle.width
                handle.height).1 * E.plat.gralloc_drm_get_bpp handle.format)) 64
          * (E.plat.gralloc_drm_align_geometry handle.format handle.width
                handle.height).2)))).ret = 0) :
    (tegra_alloc E s info handle_ptr handle).ret = none
      ∧ (tegra_alloc E s info handle_ptr handle).trace.filter Call.is_get_name = []
      ∧ (tegra_alloc E s info handle_ptr handle).trace.filter Call.is_unref = [] := by
  by_cases hbpp : E.plat.gralloc_drm_get_bpp handle.format = 0
  · rw [tegra_alloc_no_format E s info handle_ptr handle hbpp]
    simp
  by_cases hcalloc : E.calloc_ok = true
  swap
  · rw [tegra_alloc_no_record E s info handle_ptr handle (by simpa using hcalloc)]
    simp
  have ha0 : (alloc_bo E s info.drm
      (E.plat.gralloc_drm_align_geometry handle.format handle.width handle.height).1
      (E.plat.gralloc_drm_align_geometry handle.format handle.width handle.height).2
      (E.plat.gralloc_drm_get_bpp handle.format) handle.usage).ret = 0 := by
    rw [alloc_bo_eq]
    simp [hcreated]
  rcases tegra_alloc_fresh_paths E s info handle_ptr handle hname hbpp hcalloc
      _ rfl _ rfl _ rfl with ⟨_, hT⟩ | ⟨h1, _, _⟩ | ⟨h1, _, _, _⟩ | ⟨h1, _, _, _⟩
  · rw [hT, alloc_bo_eq]
    simp [Call.is_get_name, Call.is_unref]
  · exact absurd ha0 h1
  · exact absurd ha0 h1
  · exact absurd ha0 h1

/-- C6 (the code departs from the claim): on the sample library, for the descriptor
BGRA_8888 100 x 50 with no global name, when the creation call succeeds (returns 0 and
stores the object 8192) and the naming call on that object would fail (return -22),
`tegra_alloc` makes the creation call only: it never makes the naming call, never
releases the object 8192 it obtained, and returns no object. -/
theorem tegra_alloc_created_object_not_released :
    simHandle.name = 0
      ∧ (tegra_alloc simEnv { simState with deny_flink := true } simInfo 77 simHandle).trace
          = [Call.bo_new 64 0 22400 0 8192]
      ∧ (simKernel.drm_tegra_bo_get_name
            (simKernel.drm_tegra_bo_new { simState with deny_flink := true }
                simEnv.junk_bo 64 0 22400).state 8192 0).ret = -22
      ∧ (tegra_alloc simEnv { simState with deny_flink := true } simInfo 77
            simHandle).trace.filter Call.is_get_name = []
      ∧ (tegra_alloc simEnv { simState with deny_flink := true } simInfo 77
            simHandle).trace.filter Call.is_unref = []
      ∧ (tegra_alloc simEnv { simState with deny_flink := true } simInfo 77 simHandle).ret
          = none := by
  decide

/-! ## Properties of `tegra_alloc`: the display handle -/

/-- C10, counterexample: `alloc_bo` with aligned width 2^30 at 4 bytes per pixel
computes `width * cpp` as 0 and the pitch 0, which is below `width * cpp`; with
width 16384 and height 65536 at 4 bytes per pixel the pitch is 65536 and the size
passed to the kernel is 0, not `pitch * height`; and with width 100 and height -1 the
pitch is 448 and the size passed is 4294966848, not `pitch * height = -448`. -/
theorem alloc_bo_pitch_counterexample :
    (0 : Int) ≤ 1073741824 ∧ (0 : Int) < 4
      ∧ (alloc_bo simEnv simState 64 1073741824 1 4 0).pitch = 0
      ∧ ¬ ((1073741824 : Int) * 4 ≤ (alloc_bo simEnv simState 64 1073741824 1 4 0).pitch)
      ∧ (alloc_bo simEnv simState 64 16384 65536 4 0).pitch = 65536
      ∧ (alloc_bo simEnv simState 64 16384 65536 4 0).trace
          = [Call.bo_new 64 0 0 0 8192]
      ∧ (alloc_bo simEnv simState 64 16384 65536 4 0).pitch * 65536 ≠ 0
      ∧ (alloc_bo simEnv simState 64 100 (-1) 4 0).pitch * (-1) = -448
      ∧ (alloc_bo simEnv simState 64 100 (-1) 4 0).trace
          = [Call.bo_new 64 0 4294966848 0 8192] := by
  decide

/-- C10, amended: for every aligned width `w >= 0` and bytes-per-pixel `cpp > 0` with
`w * cpp + 63 <= INT_MAX`, the pitch computed by `alloc_bo` is a multiple of 64, is at
least `w * cpp` and is less than `w * cpp + 64`; and whenever
`0 <= pitch * height <= INT_MAX`, the size passed to the kernel in the one creation
call is `pitch * height`. -/
theorem alloc_bo_pitch {σ : Type} (E : Env σ) (s : σ) (drm : Ptr)
    (w height cpp : Int) (usage : Nat)
    (hw : 0 ≤ w) (hcpp : 0 < cpp) (hfit : w * cpp + 63 ≤ INT_MAX) :
    64 ∣ (alloc_bo E s drm w height cpp usage).pitch
      ∧ w * cpp ≤ (alloc_bo E s drm w height cpp usage).pitch
      ∧ (alloc_bo E s drm w height cpp usage).pitch < w * cpp + 64
      ∧ (0 ≤ (alloc_bo E s drm w height cpp usage).pitch * height
          ∧ (alloc_bo E s drm w height cpp usage).pitch * height ≤ INT_MAX →
            ∃ size ret bop, (alloc_bo E s drm w height cpp usage).trace
                = [Call.bo_new drm 0 size ret bop]
              ∧ (size : Int) = (alloc_bo E s drm w height cpp usage).pitch * height) := by
  have hp : 0 ≤ w * cpp := Int.mul_nonneg hw (le_of_lt hcpp)
  have hwrap : wrap32 (w * cpp) = w * cpp :=
    wrap32_of_range _ (le_trans (by unfold INT_MIN; omega) hp) (by omega)
  have hal := ALIGN_64_of_range (w * cpp) hp hfit
  have hpitch : (alloc_bo E s drm w height cpp usage).pitch = ALIGN (w * cpp) 64 := by
    simp [alloc_bo, hwrap]
  rw [hpitch]
  refine ⟨hal.1, hal.2.1, hal.2.2, ?_⟩
  rintro ⟨hlo, hhi⟩
  refine ⟨u32_of_int (wrap32 (ALIGN (w * cpp) 64 * height)),
    (E.kern.drm_tegra_bo_new s E.junk_bo drm 0
      (u32_of_int (wrap32 (ALIGN (w * cpp) 64 * height)))).ret,
    (E.kern.drm_tegra_bo_new s E.junk_bo drm 0
      (u32_of_int (wrap32 (ALIGN (w * cpp) 64 * height)))).out, ?_,
    u32_of_int_wrap32_of_range _ hlo hhi⟩
  rw [alloc_bo_eq, hwrap]

/-- The spec scenario: width 100 at 4 bytes per pixel gives the pitch 448, and with
height 50 the size 22400 = 448 * 50. -/
theorem alloc_bo_pitch_witness :
    (alloc_bo simEnv simState 64 100 50 4 0).pitch = 448
      ∧ (64 : Int) ∣ (alloc_bo simEnv simState 64 100 50 4 0).pitch
      ∧ (100 : Int) * 4 ≤ (alloc_bo simEnv simState 64 100 50 4 0).pitch
      ∧ (alloc_bo simEnv simState 64 100 50 4 0).pitch < 100 * 4 + 64
      ∧ (alloc_bo simEnv simState 64 100 50 4 0).trace = [Call.bo_new 64 0 22400 0 8192]
      ∧ ∃ size ret bop, (alloc_bo simEnv simState 64 100 50 4 0).trace
            = [Call.bo_new 64 0 size ret bop]
          ∧ (size : Int) = (alloc_bo simEnv simState 64 100 50 4 0).pitch * 50 :=
  have h := alloc_bo_pitch simEnv simState 64 100 50 4 0 (by decide) (by decide) (by decide)
  ⟨by decide, h.1, h.2.1, h.2.2.1, by decide, h.2.2.2 (by decide)⟩

end GrallocTegra
